import Mathlib

/-!
Shallow embedding of the travdif-bot-backend chat relay variants:
the chat-message data model, the request validation of each `/chat`
handler, the keyword-routed prompt builder (src/unnamed/part_000), the
error-fallback selection, the metrics counters, the assistant-mode poll
loop and session registry (src/unnamed/part_002), and the session-id
derivation. Definitions follow the JavaScript sources; theorems settle
the frozen claims about them.
-/

namespace TravdifBot

/-- A chat message as received in the request body: `{ role, content }`.
`content` is either a JS string or some non-string value (the handlers
that check `typeof content !== "string"` distinguish exactly that). -/
inductive Content where
  | str (s : String)
  | nonString
deriving DecidableEq

structure ChatMessage where
  role : String
  content : Content
deriving DecidableEq

/-- The request body's `messages` field: either not a JS array at all, or
an array of messages (`Array.isArray` distinguishes the two). -/
inductive MsgsField where
  | notArray
  | arr (l : List ChatMessage)

/-- What a `/chat` handler does with a request, up to the vendor boundary:
reply 400 with a message, send a message list (chat-completions variants),
send a single composed prompt (Gemini variants), or end in the catch-all
500 path. -/
inductive Step where
  | respond400 (reply : String)
  | vendorMessages (msgs : List ChatMessage)
  | vendorPrompt (prompt : String)
  | respond500
deriving DecidableEq

/-- Boolean prefix test on lists (decidable element equality). -/
def isPrefixB {α : Type} [DecidableEq α] : List α → List α → Bool
  | [], _ => true
  | _ :: _, [] => false
  | a :: as, b :: bs => a = b && isPrefixB as bs

/-- Boolean contiguous-substring test: `pat` occurs inside `l`. -/
def hasSubstr {α : Type} [DecidableEq α] (l pat : List α) : Bool :=
  match l with
  | [] => isPrefixB pat []
  | _ :: rest => isPrefixB pat l || hasSubstr rest pat

/-- JS `s.includes(pat)`: `pat` occurs contiguously inside `s`. -/
def strContains (s pat : String) : Bool :=
  hasSubstr s.data pat.data

/-- ASCII lower-casing of one character, as `toLowerCase` acts on the
ASCII range (the keyword list and the spec's example queries are ASCII). -/
def charToLower (c : Char) : Char :=
  if 'A' ≤ c ∧ c ≤ 'Z' then Char.ofNat (c.toNat + 32) else c

/-- JS `s.toLowerCase()` restricted to ASCII. -/
def strToLower (s : String) : String :=
  ⟨s.data.map charToLower⟩

/-- The fixed keyword list of src/unnamed/part_000 `generateResponse`. -/
def travelKeywords : List String :=
  ["travdif", "travel", "trip", "vacation", "holiday", "booking", "package",
   "destination", "flight", "hotel", "tour", "journey", "itinerary", "price",
   "cost", "quote", "contact", "whatsapp", "instagram", "service"]

/-- part_000: `travelKeywords.some(keyword => queryLower.includes(keyword))`
where `queryLower = userQuery.toLowerCase()`. -/
def isTravelRelated (q : String) : Bool :=
  travelKeywords.any (fun kw => strContains (strToLower q) kw)

/-- Text of the part_000 domain (knowledge-embedding) template before the
interpolated knowledge base. -/
def travelPromptPre : String :=
  "You are Zivy, an advanced AI assistant for Travdif travel services.\n\nRESPONSE STYLE:\n- Keep responses under 40 words when possible\n- For longer responses, use engaging formats:\n  • Bullet points with emojis (✨, 💰, 📱, 🔧, 🎯)  \n  • Short, scannable paragraphs\n  • Highlight key information\n  • Use conversational, friendly tone\n- Make content addictive and easy to read\n- Always be helpful and professional\n\nFORMATTING RULES:\n- Use bullet points for lists\n- Highlight prices and important info\n- Break long text into digestible chunks\n- Include relevant emojis for visual appeal\n\nTRAVDIF KNOWLEDGE BASE:\n"

/-- Text of the part_000 domain template between the knowledge base and
the interpolated user question. -/
def travelPromptMid : String :=
  "\n\nINSTRUCTIONS:\n1. First, check if the question can be answered using the Travdif knowledge base above\n2. If it's about Travdif services, pricing, contact, or travel packages - use the knowledge base\n3. If it's general travel advice, use your broader knowledge but mention Travdif when relevant\n4. Always be helpful and engaging\n\nUser Question: "

/-- Text closing both part_000 templates after the user question. -/
def promptPost : String :=
  "\n\nYour Response:"

/-- part_000 domain-routed `systemPrompt` (the `isTravelRelated` branch). -/
def travelPrompt (kb q : String) : String :=
  travelPromptPre ++ kb ++ travelPromptMid ++ q ++ promptPost

/-- Text of the part_000 general-purpose template before the user question. -/
def generalPromptPre : String :=
  "You are Zivy, an AI assistant. While I specialize in helping with Travdif travel services, I'm happy to help with any question you have!\n\nRESPONSE STYLE:\n- Keep responses under 40 words when possible\n- For longer responses, use engaging formats:\n  • Bullet points with emojis (✨, 💰, 📱, 🔧, 🎯)\n  • Short, scannable paragraphs\n  • Use conversational, friendly tone\n- Always be helpful and professional\n\nINSTRUCTIONS:\n1. Answer the user's question using your general knowledge\n2. Be accurate and helpful\n3. If the topic could relate to travel, briefly mention that I also help with Travdif travel services\n4. Use emojis and friendly tone\n\nUser Question: "

/-- part_000 general-purpose `systemPrompt` (the other branch). -/
def generalPrompt (q : String) : String :=
  generalPromptPre ++ q ++ promptPost

/-- part_000 `generateResponse`: the system prompt actually sent to the
vendor, chosen by the keyword routing. -/
def systemPromptFor (kb q : String) : String :=
  if isTravelRelated q then travelPrompt kb q else generalPrompt q

/-- Which of the two instruction templates the Prompt Builder selected. -/
inductive Template where
  | domain
  | general
deriving DecidableEq

/-- The branch part_000 `generateResponse` takes for a query. -/
def selectedTemplate (q : String) : Template :=
  if isTravelRelated q then Template.domain else Template.general

/-- Text of the system prompt the plain OpenAI handler of src/server.js
(first document, lines 45-99) substitutes for a leading system message,
before the interpolated knowledge text. The template literal is passed
through `.trim()` after interpolation. -/
def v1SystemPre : String :=
  "\nYou are Zivy, an advanced AI assistant for Travdif.\n\nRESPONSE STYLE:\n- Keep responses under 40 words when possible\n- For longer responses, use engaging formats:\n  • Bullet points with emojis (✨, 💰, 📱, 🔧, 🎯)\n  • Short, scannable paragraphs\n  • Highlight key information\n  • Use conversational, friendly tone\n- Make content addictive and easy to read\n- Always be helpful and professional\n\nFORMATTING RULES:\n- Use bullet points for lists\n- Highlight prices and important info\n- Break long text into digestible chunks\n- Include relevant emojis for visual appeal\n\nAnswer user questions about Travdif travel services accurately and engagingly.\n\nUse the Travdif knowledge base to answer questions accurately.\n\n"

/-- The replacement system-message content of src/server.js lines 56-83:
template text, knowledge, trailing indentation, then JS `.trim()`. -/
def v1SystemContent (kb : String) : String :=
  (v1SystemPre ++ kb ++ "\n          ").trim

/-- Text of the part_001 replacement system message before the knowledge. -/
def part1SystemPre : String :=
  "\nYou are Zivy, the AI assistant for TravDif.\nAnswer all questions concisely and clearly, with a friendly but professional tone.\nBe warm and human, but avoid lengthy replies or unnecessary details.\nMirror the user's mood: act chill and casual if they are, businesslike if they're serious.\nFor store/product/support questions, always use TravDif's knowledge; for other topics, use your general world knowledge.\n\n"

/-- part_001 lines 56-72 replacement content (trimmed after interpolation). -/
def part1SystemContent (kb : String) : String :=
  (part1SystemPre ++ kb ++ "\n          ").trim

/-- The `updatedMessages` mapping of src/server.js lines 54-86 and
part_001 lines 56-72: `messages.map((msg, idx) => ...)` where the
replacement fires only at `idx === 0 && msg.role === "system"`, so only
the head of the list can change; every later element is returned as-is. -/
def updatedMessagesIdx0 (sys : String) : List ChatMessage → List ChatMessage
  | [] => []
  | m :: rest =>
      (if m.role = "system" then ⟨"system", Content.str sys⟩ else m) :: rest

/-- Text of the part_003 replacement system message before the knowledge
(no `.trim()` call there; the literal ends right after the knowledge). -/
def part3SystemPre : String :=
  "\nYou are Zivy, the AI assistant for TravDif. You balance friendliness with professionalism—warm and approachable, with light humor, but never overly casual. Always adapt your tone: if the user is relaxed, mirror their chill vibe; if they ask serious questions, respond more formally—yet maintain a human touch Answer all questions in a concise and clear manner.  \nKeep responses short but informative\nAlways pack important info but keep it easy to understand and to the point.\n\nUse the TravDif knowledge below for store-specific questions. If the user asks about other topics, draw on your general knowledge to help, but stay concise and clear.\n\n"

/-- part_003 replacement system-message content. -/
def part3SystemContent (kb : String) : String :=
  part3SystemPre ++ kb

/-- part_003 lines 32-48: `messages.map(msg => ...)` replacing EVERY
message whose role is "system", at any index. -/
def part3UpdatedMessages (kb : String) (msgs : List ChatMessage) : List ChatMessage :=
  msgs.map (fun m =>
    if m.role = "system" then ⟨"system", Content.str (part3SystemContent kb)⟩ else m)

/-- src/server.js lines 45-99 `/chat`: validates only `Array.isArray`,
then maps the messages and calls the chat-completions API. -/
def serverV1Handle (kb : String) : MsgsField → Step
  | MsgsField.notArray =>
      Step.respond400 "Invalid request format. 'messages' must be an array."
  | MsgsField.arr l =>
      Step.vendorMessages (updatedMessagesIdx0 (v1SystemContent kb) l)

/-- part_000 lines 196-245 `/chat`: rejects a non-array or empty array,
then rejects a last message whose role is not "user"; a non-string
content passes validation but `userQuery.toLowerCase()` then throws,
landing in the catch (500); otherwise `generateResponse` is called with
the composed system prompt. -/
def part0Handle (kb : String) : MsgsField → Step
  | MsgsField.notArray =>
      Step.respond400 "Invalid request format. 'messages' must be an array."
  | MsgsField.arr l =>
      match l.getLast? with
      | none => Step.respond400 "Invalid request format. 'messages' must be an array."
      | some m =>
          if m.role = "user" then
            match m.content with
            | Content.str s => Step.vendorPrompt (systemPromptFor kb s)
            | Content.nonString => Step.respond500
          else Step.respond400 "Invalid message format."

/-- The Zivy-Beta handler of src/server.js lines 245-277: rejects a
non-array or empty array, then a last message that is not a user message
with string content; otherwise relays the user query to the vendor. -/
def zivyBetaHandle : MsgsField → Step
  | MsgsField.notArray =>
      Step.respond400 "Invalid request format. 'messages' must be a non-empty array."
  | MsgsField.arr l =>
      match l.getLast? with
      | none => Step.respond400 "Invalid request format. 'messages' must be a non-empty array."
      | some m =>
          if m.role = "user" then
            match m.content with
            | Content.str s => Step.vendorPrompt s
            | Content.nonString => Step.respond400 "Invalid message format."
          else Step.respond400 "Invalid message format."

/-- part_000 catch-block fallback strings (lines 233-241). -/
def part0GenericMsg : String := "Sorry, I'm having trouble right now. Please try again! 🔧"

def part0ConfigMsg : String := "Configuration issue. Please contact support! 🔧"

def part0BusyMsg : String := "Service temporarily busy. Please try again in a moment! ⏳"

def part0UpdatingMsg : String := "AI service updating. Please try again shortly! 🔄"

/-- part_000 catch block: an `else if` chain, so the FIRST matching
substring decides the fallback. -/
def part0Fallback (msg : String) : String :=
  if strContains msg "API key" then part0ConfigMsg
  else if strContains msg "quota" then part0BusyMsg
  else if strContains msg "model" then part0UpdatingMsg
  else part0GenericMsg

/-- part_000: the (status, reply) pair of the catch path. -/
def part0ErrorResponse (msg : String) : Nat × String :=
  (500, part0Fallback msg)

/-- Zivy-Beta (src/server.js lines 271-274) fallback strings. -/
def betaGenericMsg : String := "Sorry, I'm having trouble right now. Please try again in a moment. 🔧"

def betaConfigMsg : String := "Configuration issue. Please contact support. 🔧"

def betaBusyMsg : String := "Service busy right now. Please try again shortly. ⏳"

def betaUpdatingMsg : String := "AI service updating. Please try again shortly. 🔄"

/-- Zivy-Beta catch block: three INDEPENDENT `if` statements reassigning
`fallback` in sequence, so the LAST matching substring decides. -/
def betaFallback (msg : String) : String :=
  let f0 := betaGenericMsg
  let f1 := if strContains msg "API key" then betaConfigMsg else f0
  let f2 := if strContains msg "quota" then betaBusyMsg else f1
  if strContains msg "model" then betaUpdatingMsg else f2

/-- Zivy-Beta: the (status, reply) pair of the catch path. -/
def betaErrorResponse (msg : String) : Nat × String :=
  (500, betaFallback msg)

/-- The fixed fallback reply of the assistant-mode handler (part_002
line 186) when the run has not completed. -/
def processingMsg : String := "I'm processing your request. Please try again in a moment! 🔧"

/-- The poll loop of part_002 lines 170-178, fuel-indexed so that it
computes: `while (runStatus.status === 'running' && attempts < 30)`,
re-retrieving the status and incrementing `attempts` each iteration.
`retrieve n` is the status the n-th `runs.retrieve` call reports (call 0
is the one before the loop). The fuel never runs out before the
`attempts < 30` guard stops the loop, since `attempts` grows by one per
step. Returns (final attempts, final status). -/
def pollAux (retrieve : Nat → String) : Nat → String → Nat → Nat × String
  | 0, status, attempts => (attempts, status)
  | fuel + 1, status, attempts =>
      if status = "running" ∧ attempts < 30 then
        pollAux retrieve fuel (retrieve (attempts + 1)) (attempts + 1)
      else (attempts, status)

/-- part_002: initial retrieve, then the bounded poll loop. -/
def pollRun (retrieve : Nat → String) : Nat × String :=
  pollAux retrieve 31 (retrieve 0) 0

/-- part_002 lines 180-188: when the final status is not "completed" the
handler replies with the fixed processing message, otherwise with the
assistant's answer fetched from the thread. -/
def runReply (finalStatus answer : String) : String :=
  if finalStatus = "completed" then answer else processingMsg

/-- Modelled from the spec: the poll loop as the claim words it, polling
while the status is NON-TERMINAL (for example "queued" or "running"),
still bounded by the 30-attempt budget. Used only to compare the claim's
wording against `pollRun`. -/
def claimedPollAux (retrieve : Nat → String) : Nat → String → Nat → Nat × String
  | 0, status, attempts => (attempts, status)
  | fuel + 1, status, attempts =>
      if (status = "queued" ∨ status = "running") ∧ attempts < 30 then
        claimedPollAux retrieve fuel (retrieve (attempts + 1)) (attempts + 1)
      else (attempts, status)

/-- Modelled from the spec: bounded polling over non-terminal statuses. -/
def claimedPollRun (retrieve : Nat → String) : Nat × String :=
  claimedPollAux retrieve 31 (retrieve 0) 0

/-- The session/thread registry of part_002: the JS `Map` keeps its
entries in insertion order with distinct keys; `entries` mirrors that
order, a handle being the vendor thread id. -/
structure Registry (κ : Type) where
  entries : List (κ × Nat)

/-- Lookup in insertion order: `userThreads.get(sessionId)` (and `has`). -/
def findHandle {κ : Type} [DecidableEq κ] (k : κ) : List (κ × Nat) → Option Nat
  | [] => none
  | (k0, h0) :: rest => if k0 = k then some h0 else findHandle k rest

/-- part_002 lines 145-156: return the stored thread for the session key
if present; otherwise create a fresh thread, `set` it (append, the key
being absent), and if the size now exceeds 1000 delete the first key of
the iteration order (the oldest-inserted entry, the head). -/
def getOrCreate {κ : Type} [DecidableEq κ] (r : Registry κ) (k : κ) (fresh : Nat) :
    Nat × Registry κ :=
  match findHandle k r.entries with
  | some h => (h, r)
  | none =>
      let inserted := r.entries ++ [(k, fresh)]
      if inserted.length > 1000 then (fresh, ⟨inserted.tail⟩) else (fresh, ⟨inserted⟩)

/-- Each session key maps to at most one handle: the key column has no
duplicate. -/
def keysNodup {κ : Type} (r : Registry κ) : Prop :=
  (r.entries.map Prod.fst).Nodup

/-- Estimated cost of one successful call, part_000 lines 168-171:
`(inputChars/4 * 0.075 + outputChars/4 * 0.30) / 1_000_000`, modelled
with exact rationals. -/
def estimatedCost (inputChars outputChars : Nat) : ℚ :=
  ((inputChars : ℚ) / 4 * (75 / 1000) + (outputChars : ℚ) / 4 * (30 / 100)) / 1000000

/-- The two process-lifetime counters of part_000. -/
structure Metrics where
  totalRequests : Nat
  totalCost : ℚ

/-- Both counters start at zero (`let totalRequests = 0; let totalCost = 0;`). -/
def initMetrics : Metrics := ⟨0, 0⟩

/-- One successful `/chat` call: `totalRequests++` at entry (line 198)
and `totalCost += estimatedCost` inside `generateResponse` (line 172),
with the prompt and reply character counts of that call. -/
def recordChat (s : Metrics) (promptChars replyChars : Nat) : Metrics :=
  ⟨s.totalRequests + 1, s.totalCost + estimatedCost promptChars replyChars⟩

/-- A sequence of successful calls, folded over the metrics state. -/
def runChats (s : Metrics) (calls : List (Nat × Nat)) : Metrics :=
  calls.foldl (fun acc c => recordChat acc c.1 c.2) s

/-- The base64 alphabet used by `Buffer.toString('base64')`. -/
def b64Alphabet : String :=
  "ABCDEFGHIJKLMNOPQRSTUVWXYZabcdefghijklmnopqrstuvwxyz0123456789+/"

def b64Char (n : Nat) : Char :=
  b64Alphabet.data.getD n 'A'

/-- Standard base64 of a byte list, 3 bytes to 4 characters, '=' padding:
what `Buffer.from(s).toString('base64')` produces. -/
def base64Encode : List Nat → List Char
  | [] => []
  | [a] => [b64Char (a / 4), b64Char (a % 4 * 16), '=', '=']
  | [a, b] => [b64Char (a / 4), b64Char (a % 4 * 16 + b / 16), b64Char (b % 16 * 4), '=']
  | a :: b :: c :: rest =>
      b64Char (a / 4) :: b64Char (a % 4 * 16 + b / 16) ::
      b64Char (b % 16 * 4 + c / 64) :: b64Char (c % 64) :: base64Encode rest

/-- UTF-8 encoding of one code point (what `Buffer.from` applies). -/
def utf8EncodeChar (c : Nat) : List Nat :=
  if c < 128 then [c]
  else if c < 2048 then [192 + c / 64, 128 + c % 64]
  else if c < 65536 then [224 + c / 4096, 128 + c / 64 % 64, 128 + c % 64]
  else [240 + c / 262144, 128 + c / 4096 % 64, 128 + c / 64 % 64, 128 + c % 64]

def utf8Bytes (s : String) : List Nat :=
  s.data.flatMap (fun c => utf8EncodeChar c.toNat)

/-- part_002 lines 107-111 `generateSessionId`: base64 of
`ip + "-" + userAgent`, truncated to its first 16 characters
(which cover only the first 12 bytes of the input). -/
def generateSessionId (ip userAgent : String) : String :=
  ⟨(base64Encode (utf8Bytes (ip ++ "-" ++ userAgent))).take 16⟩

theorem isPrefixB_append {α : Type} [DecidableEq α] (l t : List α) :
    isPrefixB l (l ++ t) = true := by
  induction l with
  | nil => rfl
  | cons a as ih => simp [isPrefixB, ih]

theorem hasSubstr_nil_pat {α : Type} [DecidableEq α] (l : List α) :
    hasSubstr l [] = true := by
  cases l <;> rfl

theorem hasSubstr_cons {α : Type} [DecidableEq α] (x : α) (rest pat : List α)
    (h : hasSubstr rest pat = true) : hasSubstr (x :: rest) pat = true := by
  simp [hasSubstr, h]

theorem hasSubstr_append_left {α : Type} [DecidableEq α] (s l pat : List α)
    (h : hasSubstr l pat = true) : hasSubstr (s ++ l) pat = true := by
  induction s with
  | nil => exact h
  | cons a as ih => exact hasSubstr_cons a (as ++ l) pat ih

theorem hasSubstr_self_append {α : Type} [DecidableEq α] (l t : List α) :
    hasSubstr (l ++ t) l = true := by
  cases l with
  | nil => exact hasSubstr_nil_pat t
  | cons a as =>
      simp only [hasSubstr, Bool.or_eq_true]
      exact Or.inl (isPrefixB_append (a :: as) t)

theorem isTravelRelated_iff (q : String) :
    isTravelRelated q = true ↔
      ∃ kw ∈ travelKeywords, strContains (strToLower q) kw = true := by
  simp [isTravelRelated, List.any_eq_true]

/-- C4: the keyword-routed Prompt Builder of part_000 selects the
domain (knowledge-embedding) template exactly when some keyword of the
fixed travel list occurs in the lowercased query, otherwise the general
template; in particular the capital-of-France query routes to the general
template and the Travdif-package-cost query to the domain template. -/
theorem claim4_keyword_routing :
    (∀ q : String, selectedTemplate q = Template.domain ↔
      ∃ kw ∈ travelKeywords, strContains (strToLower q) kw = true) ∧
    selectedTemplate "What is the capital of France?" = Template.general ∧
    selectedTemplate "How much does a Travdif package cost?" = Template.domain := by
  refine ⟨?_, by decide, by decide⟩
  intro q
  rw [← isTravelRelated_iff q]
  unfold selectedTemplate
  by_cases hb : isTravelRelated q = true
  · simp [hb]
  · simp [hb]

/-- C7: for every domain-routed query the knowledge string appears
verbatim, as a contiguous substring, inside the system prompt built by
part_000's `generateResponse`. -/
theorem claim7_knowledge_in_prompt (kb q : String) (h : isTravelRelated q = true) :
    strContains (systemPromptFor kb q) kb = true := by
  unfold systemPromptFor
  rw [if_pos h]
  unfold travelPrompt strContains
  simp only [String.data_append, List.append_assoc]
  exact hasSubstr_append_left _ _ _ (hasSubstr_self_append _ _)

/-- C7 witness: a concrete knowledge string and a domain-routed query. -/
theorem claim7_witness :
    strContains (systemPromptFor "THE-KNOWLEDGE-TEXT" "plan my travel") "THE-KNOWLEDGE-TEXT" = true :=
  claim7_knowledge_in_prompt "THE-KNOWLEDGE-TEXT" "plan my travel" (by decide)

/-- C1 (amended): a non-array `messages` body yields 400 without a vendor
call in all cited handlers, and an empty array yields 400 in the
validating variants (part_000 and the Zivy-Beta handler); the plain
OpenAI handler of server.js lines 45-99, however, checks only
`Array.isArray`, so it forwards an empty array to the vendor. -/
theorem claim1_empty_validation (kb : String) :
    part0Handle kb MsgsField.notArray =
      Step.respond400 "Invalid request format. 'messages' must be an array." ∧
    part0Handle kb (MsgsField.arr []) =
      Step.respond400 "Invalid request format. 'messages' must be an array." ∧
    zivyBetaHandle MsgsField.notArray =
      Step.respond400 "Invalid request format. 'messages' must be a non-empty array." ∧
    zivyBetaHandle (MsgsField.arr []) =
      Step.respond400 "Invalid request format. 'messages' must be a non-empty array." ∧
    serverV1Handle kb MsgsField.notArray =
      Step.respond400 "Invalid request format. 'messages' must be an array." ∧
    serverV1Handle kb (MsgsField.arr []) = Step.vendorMessages [] :=
  ⟨rfl, rfl, rfl, rfl, rfl, rfl⟩

/-- C1 counterexample: on an empty `messages` array the server.js
lines 45-99 handler does not return 400 but proceeds to the vendor call
(with the empty list), against the claim. -/
theorem claim1_counterexample :
    serverV1Handle "KB" (MsgsField.arr []) = Step.vendorMessages [] ∧
    Step.vendorMessages ([] : List ChatMessage) ≠
      Step.respond400 "Invalid request format. 'messages' must be an array." := by
  exact ⟨rfl, by decide⟩

/-- C5 (amended): part_000 returns 400 (no vendor call) when the last
entry's role is not "user", but does not check that the content is a
string — a last user message with non-string content passes validation
and ends in the catch-all 500; the Zivy-Beta handler checks both role
and string content; the plain OpenAI handler of server.js lines 45-99
performs no last-message validation at all and always calls the vendor
on an array body. -/
theorem claim5_last_message_validation (kb : String) (l : List ChatMessage) (m : ChatMessage) :
    (m.role ≠ "user" →
      part0Handle kb (MsgsField.arr (l ++ [m])) = Step.respond400 "Invalid message format.") ∧
    (m.role ≠ "user" →
      zivyBetaHandle (MsgsField.arr (l ++ [m])) = Step.respond400 "Invalid message format.") ∧
    (m.content = Content.nonString →
      zivyBetaHandle (MsgsField.arr (l ++ [m])) = Step.respond400 "Invalid message format.") ∧
    (m.role = "user" → m.content = Content.nonString →
      part0Handle kb (MsgsField.arr (l ++ [m])) = Step.respond500) ∧
    serverV1Handle kb (MsgsField.arr (l ++ [m])) =
      Step.vendorMessages (updatedMessagesIdx0 (v1SystemContent kb) (l ++ [m])) := by
  have hlast : (l ++ [m]).getLast? = some m := List.getLast?_concat l
  refine ⟨?_, ?_, ?_, ?_, rfl⟩
  · intro h
    simp [part0Handle, hlast, h]
  · intro h
    simp [zivyBetaHandle, hlast, h]
  · intro h
    by_cases hr : m.role = "user"
    · simp [zivyBetaHandle, hlast, hr, h]
    · simp [zivyBetaHandle, hlast, hr]
  · intro hr h
    simp [part0Handle, hlast, hr, h]

/-- C5 witness: concrete rejections of a last assistant message
(part_000) and of a last user message with non-string content
(Zivy-Beta). -/
theorem claim5_witness :
    part0Handle "KB" (MsgsField.arr [⟨"assistant", Content.str "hi"⟩]) =
      Step.respond400 "Invalid message format." ∧
    zivyBetaHandle (MsgsField.arr [⟨"user", Content.nonString⟩]) =
      Step.respond400 "Invalid message format." := by
  constructor
  · exact (claim5_last_message_validation "KB" [] ⟨"assistant", Content.str "hi"⟩).1 (by decide)
  · exact (claim5_last_message_validation "KB" [] ⟨"user", Content.nonString⟩).2.2.1 rfl

/-- C5 counterexample: a non-empty array ending in an assistant message
is forwarded to the vendor, not rejected with 400, by the server.js
lines 45-99 handler the claim covers. -/
theorem claim5_counterexample :
    serverV1Handle "KB" (MsgsField.arr [⟨"assistant", Content.str "hi"⟩]) =
      Step.vendorMessages [⟨"assistant", Content.str "hi"⟩] := by decide

/-- C6 (amended): both catch blocks respond 500 and agree with the
claim's substring mapping whenever at most one of the three marker
substrings occurs in the error message; but the two variants rank
overlaps oppositely: part_000's `else if` chain gives the FIRST match
(API key over quota over model) while the Zivy-Beta block's unchained
`if` statements give the LAST match (model over quota over API key). -/
theorem claim6_error_fallbacks (msg : String) :
    (part0ErrorResponse msg).1 = 500 ∧
    (betaErrorResponse msg).1 = 500 ∧
    betaFallback msg =
      (if strContains msg "model" then betaUpdatingMsg
       else if strContains msg "quota" then betaBusyMsg
       else if strContains msg "API key" then betaConfigMsg
       else betaGenericMsg) ∧
    (strContains msg "API key" = true → strContains msg "quota" = false →
      strContains msg "model" = false →
      part0Fallback msg = part0ConfigMsg ∧ betaFallback msg = betaConfigMsg) ∧
    (strContains msg "API key" = false → strContains msg "quota" = true →
      strContains msg "model" = false →
      part0Fallback msg = part0BusyMsg ∧ betaFallback msg = betaBusyMsg) ∧
    (strContains msg "API key" = false → strContains msg "quota" = false →
      strContains msg "model" = true →
      part0Fallback msg = part0UpdatingMsg ∧ betaFallback msg = betaUpdatingMsg) ∧
    (strContains msg "API key" = false → strContains msg "quota" = false →
      strContains msg "model" = false →
      part0Fallback msg = part0GenericMsg ∧ betaFallback msg = betaGenericMsg) := by
  rcases h1 : strContains msg "API key" with _ | _ <;>
    rcases h2 : strContains msg "quota" with _ | _ <;>
      rcases h3 : strContains msg "model" with _ | _ <;>
        simp [part0ErrorResponse, betaErrorResponse, part0Fallback, betaFallback, h1, h2, h3]

/-- C6 witness: a quota-only error message maps to the busy fallback in
both variants, with status 500. -/
theorem claim6_witness :
    (part0ErrorResponse "Gemini API quota exceeded").1 = 500 ∧
    part0Fallback "Gemini API quota exceeded" = part0BusyMsg ∧
    betaFallback "Gemini API quota exceeded" = betaBusyMsg := by
  have h := claim6_error_fallbacks "Gemini API quota exceeded"
  have hb := h.2.2.2.2.1 (by decide) (by decide) (by decide)
  exact ⟨h.1, hb.1, hb.2⟩

/-- C6 counterexample: an error message containing both "API key" and
"model" must, by the claim, get the config-issue reply; the Zivy-Beta
catch block replies with the service-updating message instead. -/
theorem claim6_counterexample :
    strContains "Invalid API key for model" "API key" = true ∧
    betaErrorResponse "Invalid API key for model" ≠ (500, betaConfigMsg) ∧
    betaErrorResponse "Invalid API key for model" = (500, betaUpdatingMsg) := by decide

/-- Any run of the part_002 poll loop performs at most 30 iterations
(`attempts` never passes 30). -/
theorem pollAux_fst_le (retrieve : Nat → String) (fuel : Nat) :
    ∀ (status : String) (attempts : Nat), attempts ≤ 30 →
      (pollAux retrieve fuel status attempts).1 ≤ 30 := by
  induction fuel with
  | zero => intro status attempts h; exact h
  | succ n ih =>
      intro status attempts h
      unfold pollAux
      split
      · next hc => exact ih _ _ hc.2
      · exact h

/-- C2 (amended): the part_002 poll loop runs at most 30 iterations; it
continues only while the reported status is exactly "running" — a
non-running status such as "queued" stops it immediately, with zero
further polls — and whenever the final status is not "completed" the
handler replies with the fixed processing fallback. -/
theorem claim2_poll_loop (retrieve : Nat → String) (answer : String) :
    (pollRun retrieve).1 ≤ 30 ∧
    (retrieve 0 ≠ "running" → (pollRun retrieve).1 = 0) ∧
    ((pollRun retrieve).2 ≠ "completed" →
      runReply (pollRun retrieve).2 answer = processingMsg) := by
  refine ⟨pollAux_fst_le retrieve 31 (retrieve 0) 0 (by omega), ?_, ?_⟩
  · intro h
    unfold pollRun pollAux
    rw [if_neg (by simp [h])]
  · intro h
    unfold runReply
    rw [if_neg h]

/-- C2 witness: with a permanently "queued" status the loop performs
zero iterations and the handler replies with the processing fallback. -/
theorem claim2_witness :
    (pollRun (fun _ => "queued")).1 = 0 ∧
    runReply (pollRun (fun _ => "queued")).2 "the answer" = processingMsg := by
  have h := claim2_poll_loop (fun _ => "queued") "the answer"
  exact ⟨h.2.1 (by decide), h.2.2 (by decide)⟩

/-- C2 counterexample: for a run whose status is reported "queued" on
every retrieve, the claim's loop (polling while non-terminal) would poll
30 times, but the code's loop — whose guard is `status === 'running'` —
exits at once with zero iterations. -/
theorem claim2_counterexample :
    (pollRun (fun _ => "queued")).1 = 0 ∧
    (claimedPollRun (fun _ => "queued")).1 = 30 := by decide

theorem findHandle_none_cons {κ : Type} [DecidableEq κ] (k : κ) (e : κ × Nat)
    (rest : List (κ × Nat)) (h : findHandle k (e :: rest) = none) :
    e.1 ≠ k ∧ findHandle k rest = none := by
  rcases e with ⟨k0, h0⟩
  by_cases hk : k0 = k
  · simp [findHandle, hk] at h
  · exact ⟨hk, by simpa [findHandle, hk] using h⟩

theorem findHandle_append_self {κ : Type} [DecidableEq κ] (k : κ) (hnd : Nat) :
    ∀ l : List (κ × Nat), findHandle k l = none →
      findHandle k (l ++ [(k, hnd)]) = some hnd := by
  intro l
  induction l with
  | nil => intro _; simp [findHandle]
  | cons e rest ih =>
      intro h
      obtain ⟨hne, hrest⟩ := findHandle_none_cons k e rest h
      rcases e with ⟨k0, h0⟩
      show (if k0 = k then some h0 else findHandle k (rest ++ [(k, hnd)])) = some hnd
      rw [if_neg hne]
      exact ih hrest

theorem findHandle_none_not_mem {κ : Type} [DecidableEq κ] (k : κ) :
    ∀ l : List (κ × Nat), findHandle k l = none → k ∉ l.map Prod.fst := by
  intro l
  induction l with
  | nil => intro _; simp
  | cons e rest ih =>
      intro h
      obtain ⟨hne, hrest⟩ := findHandle_none_cons k e rest h
      simp only [List.map_cons, List.mem_cons, not_or]
      exact ⟨fun hk => hne hk.symm, ih hrest⟩

theorem nodupKeys_append_new {κ : Type} [DecidableEq κ] (l : List (κ × Nat)) (k : κ)
    (f : Nat) (hnod : (l.map Prod.fst).Nodup) (hnone : findHandle k l = none) :
    ((l ++ [(k, f)]).map Prod.fst).Nodup := by
  have hkn : k ∉ l.map Prod.fst := findHandle_none_not_mem k l hnone
  simp only [List.map_append, List.map_cons, List.map_nil]
  rw [List.nodup_append]
  refine ⟨hnod, List.nodup_singleton k, ?_⟩
  intro a ha hb
  simp only [List.mem_singleton] at hb
  subst hb
  exact hkn ha

/-- C3: after any `getOrCreate` of the part_002 session registry, an
immediately repeated call with the same key returns the same handle; the
registry never grows past 1000 entries; the key column stays duplicate
free (one handle per key); and inserting a fresh key into a full
1000-entry registry evicts exactly the oldest-inserted entry, whose key
differs from the new one. -/
theorem claim3_registry (κ : Type) [DecidableEq κ] (r : Registry κ) (k : κ) (f f2 : Nat) :
    (getOrCreate (getOrCreate r k f).2 k f2).1 = (getOrCreate r k f).1 ∧
    (r.entries.length ≤ 1000 → (getOrCreate r k f).2.entries.length ≤ 1000) ∧
    (keysNodup r → keysNodup (getOrCreate r k f).2) ∧
    (r.entries.length = 1000 → findHandle k r.entries = none →
      ∃ e rest, r.entries = e :: rest ∧
        (getOrCreate r k f).2.entries = rest ++ [(k, f)] ∧ e.1 ≠ k) := by
  rcases hfind : findHandle k r.entries with _ | h0
  · -- the key is absent: a fresh thread is inserted
    by_cases hbig : r.entries.length + 1 > 1000
    · -- eviction path: the head is dropped
      rcases hE : r.entries with _ | ⟨e, rest⟩
      · rw [hE] at hbig; simp at hbig
      · have hfindE : findHandle k (e :: rest) = none := hE ▸ hfind
        have hrest : findHandle k rest = none :=
          (findHandle_none_cons k e rest hfindE).2
        have hek : e.1 ≠ k := (findHandle_none_cons k e rest hfindE).1
        have hc : 1000 < rest.length + 1 + 1 := by
          rw [hE] at hbig
          simpa using hbig
        have hg : getOrCreate r k f = (f, ⟨rest ++ [(k, f)]⟩) := by
          simp [getOrCreate, hE, hfindE, hc]
        refine ⟨?_, ?_, ?_, ?_⟩
        · rw [hg]
          simp [getOrCreate, findHandle_append_self k f rest hrest]
        · intro hle
          rw [hg]
          have hr : rest.length + 1 ≤ 1000 := by simpa using hle
          simp only [List.length_append, List.length_cons, List.length_nil]
          omega
        · intro hnod
          rw [hg]
          unfold keysNodup at hnod ⊢
          rw [hE] at hnod
          simp only [List.map_cons, List.nodup_cons] at hnod
          exact nodupKeys_append_new rest k f hnod.2 hrest
        · intro _ _
          exact ⟨e, rest, rfl, by rw [hg], hek⟩
    · -- no eviction: plain append
      have hc : ¬ 1000 < r.entries.length + 1 := by
        simpa using hbig
      have hg : getOrCreate r k f = (f, ⟨r.entries ++ [(k, f)]⟩) := by
        simp [getOrCreate, hfind, hc]
      refine ⟨?_, ?_, ?_, ?_⟩
      · rw [hg]
        simp [getOrCreate, findHandle_append_self k f r.entries hfind]
      · intro _
        rw [hg]
        simp only [List.length_append, List.length_cons, List.length_nil]
        omega
      · intro hnod
        rw [hg]
        exact nodupKeys_append_new r.entries k f hnod hfind
      · intro h1000 _
        rw [h1000] at hbig
        simp at hbig
  · -- the key is present: the registry is unchanged
    have hg : getOrCreate r k f = (h0, r) := by
      simp [getOrCreate, hfind]
    refine ⟨?_, ?_, ?_, ?_⟩
    · rw [hg]
      simp [getOrCreate, hfind]
    · intro hle
      rw [hg]
      exact hle
    · intro hnod
      rw [hg]
      exact hnod
    · intro _ hnone
      exact absurd hnone (by simp)

/-- A concrete full registry: 1000 distinct session keys in insertion
order (keys abstracted to numbers; part_002 uses base64 strings). -/
def r1000 : Registry Nat :=
  ⟨(List.range 1000).map (fun i => (i, i))⟩

set_option maxRecDepth 10000 in
/-- C3 witness: inserting the fresh key 1000 into the full registry keeps
the size at 1000, keeps keys unique, evicts exactly the oldest entry, and
a repeated `getOrCreate` with the same key returns the same handle. -/
theorem claim3_witness :
    (getOrCreate (getOrCreate r1000 1000 7).2 1000 9).1 = (getOrCreate r1000 1000 7).1 ∧
    (getOrCreate r1000 1000 7).2.entries.length ≤ 1000 ∧
    keysNodup (getOrCreate r1000 1000 7).2 ∧
    (getOrCreate r1000 1000 7).2.entries = r1000.entries.tail ++ [(1000, 7)] := by
  have h := claim3_registry Nat r1000 1000 7 9
  have hlen : r1000.entries.length = 1000 := by decide
  have hfind : findHandle 1000 r1000.entries = none := by decide
  have hnodup : keysNodup r1000 := by
    simpa [r1000, keysNodup, List.map_map, Function.comp] using List.nodup_range 1000
  obtain ⟨e, rest, hsplit, hres, _⟩ := h.2.2.2 hlen hfind
  refine ⟨h.1, h.2.1 (le_of_eq hlen), h.2.2.1 hnodup, ?_⟩
  rw [hres, hsplit]
  rfl

/-- The per-call cost estimate is never negative. -/
theorem estimatedCost_nonneg (p r : Nat) : 0 ≤ estimatedCost p r := by
  unfold estimatedCost
  positivity

/-- `totalRequests` counts every recorded call on top of the start state. -/
theorem runChats_requests (calls : List (Nat × Nat)) :
    ∀ s : Metrics, (runChats s calls).totalRequests = s.totalRequests + calls.length := by
  induction calls with
  | nil => intro s; rfl
  | cons c cs ih =>
      intro s
      have hstep : runChats s (c :: cs) = runChats (recordChat s c.1 c.2) cs := rfl
      rw [hstep, ih]
      simp [recordChat]
      omega

/-- `totalCost` stays non-negative along any run of recorded calls. -/
theorem runChats_cost_nonneg (calls : List (Nat × Nat)) :
    ∀ s : Metrics, 0 ≤ s.totalCost → 0 ≤ (runChats s calls).totalCost := by
  induction calls with
  | nil => intro s h; exact h
  | cons c cs ih =>
      intro s h
      have hstep : runChats s (c :: cs) = runChats (recordChat s c.1 c.2) cs := rfl
      rw [hstep]
      exact ih _ (add_nonneg h (estimatedCost_nonneg c.1 c.2))

/-- C8: after N successful calls from the initial state the request
counter equals N; the accumulated cost is never negative; and each
recorded call adds a non-negative estimate, so the cost is monotonically
non-decreasing across every operation. -/
theorem claim8_metrics (calls : List (Nat × Nat)) (s : Metrics) (p r : Nat) :
    (runChats initMetrics calls).totalRequests = calls.length ∧
    0 ≤ (runChats initMetrics calls).totalCost ∧
    0 ≤ estimatedCost p r ∧
    s.totalCost ≤ (recordChat s p r).totalCost := by
  refine ⟨?_, ?_, estimatedCost_nonneg p r, ?_⟩
  · rw [runChats_requests calls initMetrics]
    simp [initMetrics]
  · exact runChats_cost_nonneg calls initMetrics (le_refl 0)
  · exact le_add_of_nonneg_right (estimatedCost_nonneg p r)

/-- C9 (amended): in the chat-completions variants that guard on index 0
(server.js lines 52-91 and part_001 lines 54-78), a first message that is
not a system message leaves the whole list untouched, and every message
past index 0 is always forwarded unchanged; the part_003 variant instead
replaces EVERY system-role message, at any index. -/
theorem claim9_system_replacement (sys kb : String) (msgs : List ChatMessage) :
    (∀ m : ChatMessage, msgs.head? = some m → m.role ≠ "system" →
      updatedMessagesIdx0 sys msgs = msgs) ∧
    (∀ i : Nat, 1 ≤ i → (updatedMessagesIdx0 sys msgs).get? i = msgs.get? i) ∧
    (∀ i : Nat, ∀ m : ChatMessage, msgs.get? i = some m → m.role = "system" →
      (part3UpdatedMessages kb msgs).get? i =
        some ⟨"system", Content.str (part3SystemContent kb)⟩) := by
  refine ⟨?_, ?_, ?_⟩
  · intro m hhead hrole
    cases msgs with
    | nil => simp at hhead
    | cons m0 rest =>
        simp only [List.head?_cons, Option.some.injEq] at hhead
        subst hhead
        simp [updatedMessagesIdx0, hrole]
  · intro i hi
    cases msgs with
    | nil => rfl
    | cons m0 rest =>
        cases i with
        | zero => omega
        | succ j => rfl
  · intro i
    induction msgs generalizing i with
    | nil => intro m hm; simp at hm
    | cons m0 rest ih =>
        intro m hm hrole
        cases i with
        | zero =>
            simp only [List.get?] at hm
            injection hm with hm
            subst hm
            simp [part3UpdatedMessages, hrole]
        | succ j =>
            have hm' : rest.get? j = some m := hm
            exact ih j m hm' hrole

/-- C9 witness: a non-system head is forwarded unchanged, and part_003
rewrites a system message sitting at index 1. -/
theorem claim9_witness :
    updatedMessagesIdx0 "SYS" [⟨"user", Content.str "hi"⟩] = [⟨"user", Content.str "hi"⟩] ∧
    (part3UpdatedMessages "K"
        [⟨"user", Content.str "hi"⟩, ⟨"system", Content.str "x"⟩]).get? 1 =
      some ⟨"system", Content.str (part3SystemContent "K")⟩ := by
  constructor
  · exact (claim9_system_replacement "SYS" "K" [⟨"user", Content.str "hi"⟩]).1
      ⟨"user", Content.str "hi"⟩ rfl (by decide)
  · exact (claim9_system_replacement "SYS" "K"
      [⟨"user", Content.str "hi"⟩, ⟨"system", Content.str "x"⟩]).2.2 1
      ⟨"system", Content.str "x"⟩ rfl rfl

/-- C9 counterexample: part_003 is a chat-completions relay variant, yet
on a list whose first element is a user message and whose second is a
system message it rewrites index 1, so the forwarded list differs from
the client list. -/
theorem claim9_counterexample :
    part3UpdatedMessages "K" [⟨"user", Content.str "hi"⟩, ⟨"system", Content.str "x"⟩] ≠
      [⟨"user", Content.str "hi"⟩, ⟨"system", Content.str "x"⟩] ∧
    (⟨"user", Content.str "hi"⟩ : ChatMessage).role ≠ "system" := by decide

/-- C10: `generateSessionId` keeps only the first 16 base64 characters
(the first 12 bytes) of `ip + "-" + userAgent`, so two clients with the
same IP whose user agents differ only past that prefix get the SAME
session key — the derivation is not injective, and they share one
vendor-side thread. -/
theorem claim10_session_collision :
    generateSessionId "203.0.113.7" "Mozilla/5.0 (Windows)" =
      generateSessionId "203.0.113.7" "Mozilla/5.0 (Macintosh)" ∧
    ("Mozilla/5.0 (Windows)" : String) ≠ "Mozilla/5.0 (Macintosh)" := by decide

end TravdifBot
